import Mathlib

/-!
Shallow embedding of the finra-rs crate (src/error.rs, src/finra.rs,
src/pager.rs, src/query.rs).

Network I/O, time and the reqwest client builder are modelled as explicit
oracle parameters (`AuthEnv`, page-response lists, a `now : Int` timestamp
in seconds); everything else is translated function-by-function from the
Rust source.  Machine integers (`u64`, `i64`) are modelled as `Nat`/`Int`:
the cursors and expiry values in question count records and seconds, far
from the 2^64 boundary, and no claim concerns wrap-around.
-/

namespace FinraRs

/-- Minimal model of `serde_json::Value`, sufficient for the fields the
login-response parsing in `finra.rs` inspects. -/
inductive Json where
  | str (s : String)
  | num (n : Int)
  | bool (b : Bool)
  | null
  | arr (xs : List Json)
  | obj (fields : List (String × Json))
deriving Repr

/-- Model of `serde_json::Value::get(key)`: `Some` value for the first matching key of
an object, `None` on non-objects. -/
def Json.get : Json → String → Option Json
  | .obj fs, k => fs.lookup k
  | _, _ => none

/-- Model of `serde_json::Value::as_str()`: the string payload, `None` for any other
variant. -/
def Json.as_str : Json → Option String
  | .str s => some s
  | _ => none

/-- The error enum of src/error.rs.  Wrapped foreign errors
(`reqwest::Error`, `InvalidHeaderValue`, `serde_json::Error`, `csv::Error`)
are carried as their display strings. -/
inductive Error where
  | HttpError (msg : String)
  | InvalidHeaders (msg : String)
  | CannotConstructHttpClient
  | CannotLogin (msg : String)
  | QuerySerialization (msg : String)
  | Deserialization (msg : String)
deriving Repr, DecidableEq

/-- Decimal digit accumulation: `some` of the value for an all-digit list,
`none` as soon as a non-digit appears. -/
def digits_to_nat : List Char → Nat → Option Nat
  | [], acc => some acc
  | c :: cs, acc =>
      if c.isDigit then digits_to_nat cs (acc * 10 + (c.toNat - 48)) else none

/-- Model of `str::parse::<u64>()` on the Record-Total header value: nonempty
all-digit strings succeed, everything else fails.  Rust additionally
accepts a leading `+` and fails above `u64::MAX`, neither of which any
claim touches. -/
def parse_u64 (s : String) : Option Nat :=
  match s.toList with
  | [] => none
  | c :: cs => digits_to_nat (c :: cs) 0

/-- Model of `str::parse::<i64>()` on the `expires_in` value: an optional leading
minus then a nonempty digit string, with the same `+`/range caveats as
`parse_u64`. -/
def parse_i64 (s : String) : Option Int :=
  match s.toList with
  | '-' :: c :: cs => (digits_to_nat (c :: cs) 0).map (fun n => -(n : Int))
  | c :: cs => (digits_to_nat (c :: cs) 0).map (fun n => (n : Int))
  | [] => none

/-- The display text of the Rust integer `ParseIntError`, used inside the
`CannotLogin` message built at finra.rs:240-245. -/
def parse_int_error_msg (s : String) : String :=
  if s.isEmpty then ("cannot parse integer from empty string")
  else ("invalid digit found in string")

/-- Model of the `http::StatusCode` canonical reason phrase, for the codes this
client can meet. -/
def canonical_reason (s : Nat) : Option String :=
  if s = 200 then some ("OK")
  else if s = 201 then some ("Created")
  else if s = 204 then some ("No Content")
  else if s = 400 then some ("Bad Request")
  else if s = 401 then some ("Unauthorized")
  else if s = 403 then some ("Forbidden")
  else if s = 404 then some ("Not Found")
  else if s = 500 then some ("Internal Server Error")
  else if s = 503 then some ("Service Unavailable")
  else none

/-- Model of `Display for http::StatusCode`: the numeric code followed by the
canonical reason phrase. -/
def status_display (s : Nat) : String :=
  toString s ++ " " ++ ((canonical_reason s).getD ("<unknown status code>"))

/-- The standard base64 alphabet used by `base64::prelude::BASE64_STANDARD`. -/
def base64_alphabet : List Char :=
  "ABCDEFGHIJKLMNOPQRSTUVWXYZabcdefghijklmnopqrstuvwxyz0123456789+/".toList

/-- One output character of base64, from a 6-bit index. -/
def base64_char (n : Nat) : Char :=
  base64_alphabet.getD (n % 64) (Char.ofNat 65)

/-- Encode a byte list in standard base64 with `=` padding. -/
def base64_bytes : List Nat → String
  | [] => ""
  | [a] =>
      String.mk [base64_char (a / 4), base64_char ((a % 4) * 16), Char.ofNat 61, Char.ofNat 61]
  | [a, b] =>
      String.mk [base64_char (a / 4), base64_char ((a % 4) * 16 + b / 16),
        base64_char ((b % 16) * 4), Char.ofNat 61]
  | a :: b :: c :: rest =>
      String.mk [base64_char (a / 4), base64_char ((a % 4) * 16 + b / 16),
        base64_char ((b % 16) * 4 + c / 64), base64_char (c % 64)] ++ base64_bytes rest

/-- Model of `BASE64_STANDARD.encode` on the UTF-8 bytes of a string. -/
def base64encode (s : String) : String :=
  base64_bytes (s.toUTF8.toList.map UInt8.toNat)

/-- An HTTP client handle, identified by the default Authorization header
baked into it (`None` for the transient login client). -/
structure Client where
  defaultAuthHeader : Option String := none
deriving Repr, DecidableEq

/-- The `LoginData` struct of finra.rs (the `client_builder` factory lives
in the oracle `AuthEnv` instead of the value). -/
structure LoginData where
  client_id : String
  client_secret : String
deriving Repr, DecidableEq

/-- The token-endpoint HTTP response: status code plus the outcome of
`.json().await` (a transport/parse failure surfaces as `HttpError`). -/
structure TokenResponse where
  status : Nat
  body : Except String Json

/-- Oracle for one authentication attempt: the results of the two
`(client_builder)().build()` calls, of `send().await` (as a function of the
Basic auth header actually sent), and of `HeaderValue::from_str`.
`Except String` failures are reqwest errors, wrapped into
`Error.HttpError` at the use site exactly as `#[from]` does. -/
structure AuthEnv where
  buildLoginClient : Except String Client
  send : String → Except String TokenResponse
  validHeaderValue : String → Bool
  buildAuthedClient : Except String Unit

/-- Model of `ClientGetter` of finra.rs: the tagged union held behind the mutex. -/
inductive ClientGetter where
  | Unauthenticated (login_data : LoginData)
  | Authenticated (login_data : LoginData) (client : Client) (valid_until : Int)
deriving Repr, DecidableEq

/-- Model of `ClientGetter::_authenticate_client` (finra.rs:211-271).  Returns the
result together with the number of token-endpoint network calls made
(0 when the login client could not even be built, 1 otherwise). -/
def _authenticate_client (env : AuthEnv) (login_data : LoginData) :
    Except Error (Client × Int) × Nat :=
  let auth_header := "Basic " ++ base64encode (login_data.client_id ++ ":" ++ login_data.client_secret)
  match env.buildLoginClient with
  | .error e => (.error (.HttpError e), 0)
  | .ok _login_client =>
    match env.send auth_header with
    | .error e => (.error (.HttpError e), 1)
    | .ok login_response =>
      let login_status := login_response.status
      if login_status ≠ 200 then
        (.error (.CannotLogin ("login attempt failed with status code " ++ status_display login_status)), 1)
      else
        match login_response.body with
        | .error e => (.error (.HttpError e), 1)
        | .ok login_json =>
          match (login_json.get ("expires_in")).bind Json.as_str with
          | none =>
              (.error (.CannotLogin ("the login response didn\x27t contain the expiry of the token")), 1)
          | some valid_until_str =>
            match parse_i64 valid_until_str with
            | none =>
                (.error (.CannotLogin ("could not parse the token expiry as a number: "
                  ++ parse_int_error_msg valid_until_str)), 1)
            | some valid_until =>
              match login_json.get ("access_token") with
              | none =>
                  (.error (.CannotLogin ("access_token not present in the login response")), 1)
              | some token_json =>
                match token_json.as_str with
                | none =>
                    (.error (.CannotLogin ("access_token is not a string in the login response")), 1)
                | some token =>
                  let bearer_header := "Bearer " ++ token
                  if env.validHeaderValue bearer_header then
                    match env.buildAuthedClient with
                    | .error e => (.error (.HttpError e), 1)
                    | .ok _ => (.ok ({ defaultAuthHeader := some bearer_header }, valid_until), 1)
                  else
                    (.error (.InvalidHeaders ("failed to parse header value")), 1)

/-- Model of `ClientGetter::_authenticated_self` (finra.rs:194-209): on success the
state is swapped for `Authenticated` with `valid_until = now + validity`;
on failure the `?` returns early and the state is untouched. -/
def _authenticated_self (env : AuthEnv) (now : Int) (s : ClientGetter) (login_data : LoginData) :
    Except Error Unit × ClientGetter × Nat :=
  match _authenticate_client env login_data with
  | (.error e, n) => (.error e, s, n)
  | (.ok (cl, validity), n) => (.ok (), .Authenticated login_data cl (now + validity), n)

/-- Model of `ClientGetter::ensure_authenticated` (finra.rs:160-181). -/
def ensure_authenticated (env : AuthEnv) (now : Int) (s : ClientGetter) :
    Except Error Unit × ClientGetter × Nat :=
  match s with
  | .Unauthenticated login_data => _authenticated_self env now s login_data
  | .Authenticated login_data _client valid_until =>
      if now < valid_until then (.ok (), s, 0)
      else _authenticated_self env now s login_data

/-- Model of `ClientGetter::get_client` (finra.rs:183-192). -/
def ClientGetter.get_client : ClientGetter → Option Client
  | .Authenticated _ client _ => some client
  | .Unauthenticated _ => none

/-- Model of `Finra::get_client` (finra.rs:146-156): ensure authentication under the
lock, then read the client out of the state. -/
def Finra.get_client (env : AuthEnv) (now : Int) (s : ClientGetter) :
    Except Error (Option Client) × ClientGetter × Nat :=
  match ensure_authenticated env now s with
  | (.error e, s1, n) => (.error e, s1, n)
  | (.ok (), s1, n) => (.ok s1.get_client, s1, n)

/-- Model of `MAX_RESULTS_PER_PAGE` of query.rs. -/
def MAX_RESULTS_PER_PAGE : Nat := 1000

/-- Model of `ConsolidatedShortInterestField` of query.rs. -/
inductive ConsolidatedShortInterestField where
  | StockSplitFlag
  | PreviousShortPositionQuantity
  | AverageDailyVolumeQuantity
  | IssueName
  | CurrentShortPositionQuantity
  | ChangePreviousNumber
  | AccountingYearMonthNumber
  | SettlementDate
  | MarketClassCode
  | SymbolCode
  | DaysToCoverQuantity
  | IssuerServicesGroupExchangeCode
  | RevisionFlag
  | ChangePercent
deriving Repr, DecidableEq

/-- Model of `ConsolidatedShortInterestField::as_str`. -/
def ConsolidatedShortInterestField.as_str : ConsolidatedShortInterestField → String
  | .StockSplitFlag => "stockSplitFlag"
  | .PreviousShortPositionQuantity => "previousShortPositionQuantity"
  | .AverageDailyVolumeQuantity => "averageDailyVolumeQuantity"
  | .IssueName => "issueName"
  | .CurrentShortPositionQuantity => "currentShortPositionQuantity"
  | .ChangePreviousNumber => "changePreviousNumber"
  | .AccountingYearMonthNumber => "accountingYearMonthNumber"
  | .SettlementDate => "settlementDate"
  | .MarketClassCode => "marketClassCode"
  | .SymbolCode => "symbolCode"
  | .DaysToCoverQuantity => "daysToCoverQuantity"
  | .IssuerServicesGroupExchangeCode => "issuerServicesGroupExchangeCode"
  | .RevisionFlag => "revisionFlag"
  | .ChangePercent => "changePercent"

/-- Model of `time::Date`: year `i32`, month and day `u8` (month 1-12). -/
structure Date where
  year : Int
  month : Nat
  day : Nat
deriving Repr, DecidableEq

/-- Model of `Range<Date>`: the half-open `start..end` range; the upper bound field
is named `stop` because `end` is reserved in Lean. -/
structure DateRange where
  start : Date
  stop : Date
deriving Repr, DecidableEq

/-- Model of `ConsolidatedShortInterestQuery` of query.rs. -/
structure ConsolidatedShortInterestQuery where
  fields : Option (List ConsolidatedShortInterestField)
  date_range : Option DateRange
  symbol : Option String
  limit : Nat
  offset : Nat
deriving Repr, DecidableEq

/-- Model of `ConsolidatedShortInterestQuery::new` (query.rs:99-111). -/
def ConsolidatedShortInterestQuery.new
    (fields : Option (List ConsolidatedShortInterestField))
    (date_range : Option DateRange) (symbol : Option String) :
    ConsolidatedShortInterestQuery :=
  { fields := fields, date_range := date_range, symbol := symbol,
    limit := MAX_RESULTS_PER_PAGE, offset := 0 }

/-- Model of `Query::move_cursor` for `ConsolidatedShortInterestQuery`
(query.rs:123-131): only the offset changes, by `by`. -/
def ConsolidatedShortInterestQuery.move_cursor
    (q : ConsolidatedShortInterestQuery) (by_ : Nat) : ConsolidatedShortInterestQuery :=
  { fields := q.fields, date_range := q.date_range, symbol := q.symbol,
    limit := q.limit, offset := q.offset + by_ }

/-- Rust `{:02}` formatting: zero-pad to two digits. -/
def pad2 (n : Nat) : String :=
  if n < 10 then ("0") ++ toString n else toString n

/-- The `{}-{:02}-{:02}` date formatting of query.rs:197-209. -/
def format_date (d : Date) : String :=
  toString d.year ++ "-" ++ pad2 d.month ++ "-" ++ pad2 d.day

/-- Model of `Serialize for ConsolidatedShortInterestQueryDateRange`
(query.rs:186-213), already wrapped in the one-element sequence `AsSeq`
emits (query.rs:170-184). -/
def serialize_date_range (dr : DateRange) : Json :=
  .arr [.obj [("fieldName", .str ("settlementDate")),
    ("startDate", .str (format_date dr.start)),
    ("endDate", .str (format_date dr.stop))]]

/-- Model of `Serialize for ConsolidatedShortInterestQuerySymbolFilter`
(query.rs:215-227), wrapped in the one-element `AsSeq` sequence. -/
def serialize_symbol_filter (symbol : String) : Json :=
  .arr [.obj [("fieldName", .str ("symbolCode")),
    ("fieldValue", .str symbol),
    ("compareType", .str ("EQUAL"))]]

/-- Model of `Serialize for ConsolidatedShortInterestQuery` (query.rs:134-168) as
the ordered list of map entries emitted: each optional entry only when the
option is `Some`, then always `limit` and `offset`. -/
def ConsolidatedShortInterestQuery.serialize
    (q : ConsolidatedShortInterestQuery) : List (String × Json) :=
  (match q.fields with
   | some fs => [("fields", Json.arr (fs.map (fun f => Json.str f.as_str)))]
   | none => []) ++
  (match q.date_range with
   | some dr => [("dateRangeFilters", serialize_date_range dr)]
   | none => []) ++
  (match q.symbol with
   | some symbol => [("compareFilters", serialize_symbol_filter symbol)]
   | none => []) ++
  [("limit", Json.num (Int.ofNat q.limit)), ("offset", Json.num (Int.ofNat q.offset))]

/-- One data-endpoint page response, for record type `T`: the HTTP status
(error statuses were already turned into `Err` by `error_for_status`), the
raw `Record-Total` header value when present, and the outcome of
`text().await` followed by the permissive csv decode (`deserialize().flatten()`
never fails, so only the body read can error). -/
structure PageResponse (T : Type) where
  status : Nat
  record_total_header : Option String
  body : Except String (List T)

/-- Model of `PagerState` of pager.rs, specialised (as in `consolidated_short_interest`)
to the one `Query` implementation; the `end` field is `end_` because `end`
is reserved in Lean. -/
structure PagerState (T : Type) where
  client : Client
  url : String
  query : ConsolidatedShortInterestQuery
  end_ : Bool

/-- One iteration of the `try_unfold` closure in `all_results`
(pager.rs:33-79), with the network answer for this iteration passed in as
`resp` (`Except.error` covers transport failures and the non-success
statuses `error_for_status` rejects). -/
def pager_step {T : Type} (resp : Except Error (PageResponse T)) (st : PagerState T) :
    Except Error (Option (List T × PagerState T)) :=
  if st.end_ then .ok none
  else
    match resp with
    | .error e => .error e
    | .ok response =>
      if response.status ≠ 200 then .ok none
      else
        let total : Nat := ((response.record_total_header).bind parse_u64).getD 0
        match response.body with
        | .error e => .error (.HttpError e)
        | .ok items =>
          let new_query := st.query.move_cursor items.length
          let end_ := decide (total ≤ new_query.offset)
          .ok (some (items, { client := st.client, url := st.url, query := new_query, end_ := end_ }))

/-- Drive `pager_step` against a list of per-request network answers,
collecting the yielded pages, until the stream ends, errors, or the answer
list runs out; also returns the final pager state. -/
def run_pager {T : Type} : List (Except Error (PageResponse T)) → PagerState T →
    List (List T) × PagerState T
  | [], st => ([], st)
  | resp :: rest, st =>
    match pager_step resp st with
    | .error _ => ([], st)
    | .ok none => ([], st)
    | .ok (some (items, st1)) =>
      let tail := run_pager rest st1
      (items :: tail.1, tail.2)

/-- Model of `all_results` (pager.rs:17-82): the initial unfold state. -/
def all_results {T : Type} (client : Client) (url : String)
    (query : ConsolidatedShortInterestQuery) : PagerState T :=
  { client := client, url := url, query := query, end_ := false }

/-- The record type of finra.rs:32-76; its fields are never inspected by
the paging logic, so it is carried opaquely. -/
structure ConsolidatedShortInterest where
  symbol_code : String := ""
  settlement_date : String := ""
deriving Repr, DecidableEq

/-- The two data-endpoint URLs of finra.rs:20-23. -/
def SHORT_INTEREST_ENDPOINT : String :=
  "https://api.finra.org/data/group/otcmarket/name/consolidatedShortInterest"

def MOCK_SHORT_INTEREST_ENDPOINT : String :=
  "https://api.finra.org/data/group/otcmarket/name/consolidatedShortInterestMock"

/-- The `Finra` struct of finra.rs:26-29. -/
structure Finra where
  use_mock_datasets : Bool
  client_getter : ClientGetter

/-- Model of `Finra::consolidated_short_interest` (finra.rs:121-144): resolve a
client, then hand it to the pager.  The stream is lazy, so the call itself
performs no data-endpoint request; it returns either the initial pager
state or the error from client resolution.  Alongside the result we return
the updated state and the number of token-endpoint calls made. -/
def Finra.consolidated_short_interest (env : AuthEnv) (now : Int) (f : Finra)
    (query : ConsolidatedShortInterestQuery) :
    Except Error (PagerState ConsolidatedShortInterest) × Finra × Nat :=
  let endpoint := if f.use_mock_datasets then MOCK_SHORT_INTEREST_ENDPOINT
    else SHORT_INTEREST_ENDPOINT
  match Finra.get_client env now f.client_getter with
  | (.error e, s1, n) => (.error e, { f with client_getter := s1 }, n)
  | (.ok none, s1, n) => (.error .CannotConstructHttpClient, { f with client_getter := s1 }, n)
  | (.ok (some cl), s1, n) =>
      (.ok (all_results cl endpoint query), { f with client_getter := s1 }, n)

/-! Concrete sample values, used to instantiate theorems with hypotheses. -/

def sampleLoginData : LoginData := { client_id := "id", client_secret := "secret" }

def sampleClient : Client := { defaultAuthHeader := some ("Bearer abc") }

def goodTokenBody : Json := .obj [("expires_in", .str ("3600")), ("access_token", .str ("abc"))]

def goodAuthEnv : AuthEnv :=
  { buildLoginClient := .ok {},
    send := fun _ => .ok { status := 200, body := .ok goodTokenBody },
    validHeaderValue := fun _ => true,
    buildAuthedClient := .ok () }

def resp401 : TokenResponse := { status := 401, body := .ok .null }

def env401 : AuthEnv :=
  { buildLoginClient := .ok {},
    send := fun _ => .ok resp401,
    validHeaderValue := fun _ => true,
    buildAuthedClient := .ok () }

def envExpiryMissing : AuthEnv :=
  { buildLoginClient := .ok {},
    send := fun _ => .ok { status := 200, body := .ok (.obj [("access_token", .str ("abc"))]) },
    validHeaderValue := fun _ => true,
    buildAuthedClient := .ok () }

def wrongTypeTokenBody : Json :=
  .obj [("access_token", .str ("abc")), ("expires_in", .num 3600)]

def envExpiryWrongType : AuthEnv :=
  { buildLoginClient := .ok {},
    send := fun _ => .ok { status := 200, body := .ok wrongTypeTokenBody },
    validHeaderValue := fun _ => true,
    buildAuthedClient := .ok () }

def samplePage : PageResponse Unit :=
  { status := 200, record_total_header := some ("5"), body := .ok [(), (), ()] }

def samplePagerState : PagerState Unit :=
  all_results {} "url" (ConsolidatedShortInterestQuery.new none none none)

def sampleNextQuery : ConsolidatedShortInterestQuery :=
  { fields := none
    date_range := none
    symbol := none
    limit := MAX_RESULTS_PER_PAGE
    offset := 3 }

def sampleNextState : PagerState Unit :=
  { client := {}, url := "url", query := sampleNextQuery, end_ := false }

def noTotalPage : PageResponse Unit :=
  { status := 200, record_total_header := none, body := .ok [(), ()] }

/-! Theorems. -/

/-- C9: `move_cursor(q, by)` increases only the offset, by exactly `by`;
limit, fields, date_range and symbol are unchanged, and the limit of a
freshly constructed query is the fixed page size `MAX_RESULTS_PER_PAGE`,
preserved by every cursor move. -/
theorem move_cursor_advances_offset_only :
    (∀ (q : ConsolidatedShortInterestQuery) (by_ : Nat),
        (q.move_cursor by_).offset = q.offset + by_ ∧
        (q.move_cursor by_).limit = q.limit ∧
        (q.move_cursor by_).fields = q.fields ∧
        (q.move_cursor by_).date_range = q.date_range ∧
        (q.move_cursor by_).symbol = q.symbol) ∧
    (∀ (fields : Option (List ConsolidatedShortInterestField))
        (date_range : Option DateRange) (symbol : Option String),
        (ConsolidatedShortInterestQuery.new fields date_range symbol).limit
          = MAX_RESULTS_PER_PAGE ∧
        ∀ (by_ : Nat),
          ((ConsolidatedShortInterestQuery.new fields date_range symbol).move_cursor by_).limit
            = MAX_RESULTS_PER_PAGE) := by
  exact ⟨fun q by_ => ⟨rfl, rfl, rfl, rfl, rfl⟩,
    fun fields date_range symbol => ⟨rfl, fun by_ => rfl⟩⟩

/-- C8: with `date_range = none` and `symbol = none` the serialized body
has no `dateRangeFilters` and no `compareFilters` key at all, while
`limit` and `offset` are always present. -/
theorem serialize_omits_absent_filter_keys :
    ∀ (q : ConsolidatedShortInterestQuery), q.date_range = none → q.symbol = none →
      "dateRangeFilters" ∉ q.serialize.map Prod.fst ∧
      "compareFilters" ∉ q.serialize.map Prod.fst ∧
      "limit" ∈ q.serialize.map Prod.fst ∧
      "offset" ∈ q.serialize.map Prod.fst := by
  intro q hd hs
  obtain ⟨fields, date_range, symbol, limit, offset⟩ := q
  simp only at hd hs
  subst hd hs
  cases fields <;> simp [ConsolidatedShortInterestQuery.serialize]

/-- Witness for `serialize_omits_absent_filter_keys` at the all-`none`
query. -/
theorem serialize_omits_absent_filter_keys_witness :
    "dateRangeFilters" ∉
      (ConsolidatedShortInterestQuery.new none none none).serialize.map Prod.fst ∧
    "compareFilters" ∉
      (ConsolidatedShortInterestQuery.new none none none).serialize.map Prod.fst ∧
    "limit" ∈ (ConsolidatedShortInterestQuery.new none none none).serialize.map Prod.fst ∧
    "offset" ∈ (ConsolidatedShortInterestQuery.new none none none).serialize.map Prod.fst :=
  serialize_omits_absent_filter_keys (ConsolidatedShortInterestQuery.new none none none) rfl rfl

/-- C3: with an `Authenticated` state whose token is still valid
(`now < valid_until`), both the cache step and `Finra::get_client` make
zero token-endpoint calls, leave the state unchanged, and hand back the
stored client. -/
theorem authenticated_cache_hit_no_network :
    ∀ (env : AuthEnv) (now : Int) (ld : LoginData) (cl : Client) (valid_until : Int),
      now < valid_until →
      ensure_authenticated env now (.Authenticated ld cl valid_until)
        = (.ok (), .Authenticated ld cl valid_until, 0) ∧
      Finra.get_client env now (.Authenticated ld cl valid_until)
        = (.ok (some cl), .Authenticated ld cl valid_until, 0) := by
  intro env now ld cl valid_until h
  have h1 : ensure_authenticated env now (.Authenticated ld cl valid_until)
      = (.ok (), .Authenticated ld cl valid_until, 0) := by
    simp only [ensure_authenticated]
    rw [if_pos h]
  refine ⟨h1, ?_⟩
  unfold Finra.get_client
  rw [h1]
  rfl

/-- Witness for `authenticated_cache_hit_no_network` at `now = 0`,
`valid_until = 1`. -/
theorem authenticated_cache_hit_no_network_witness :
    ensure_authenticated goodAuthEnv 0 (.Authenticated sampleLoginData sampleClient 1)
      = (.ok (), .Authenticated sampleLoginData sampleClient 1, 0) ∧
    Finra.get_client goodAuthEnv 0 (.Authenticated sampleLoginData sampleClient 1)
      = (.ok (some sampleClient), .Authenticated sampleLoginData sampleClient 1, 0) :=
  authenticated_cache_hit_no_network goodAuthEnv 0 sampleLoginData sampleClient 1 (by decide)

/-- Helper: `_authenticated_self` leaves the state untouched whenever the
authentication attempt fails. -/
theorem _authenticated_self_error_frame (env : AuthEnv) (now : Int)
    (s : ClientGetter) (ld : LoginData) (e : Error) :
    (_authenticated_self env now s ld).1 = .error e →
    (_authenticated_self env now s ld).2.1 = s := by
  unfold _authenticated_self
  cases hac : _authenticate_client env ld with
  | mk r n =>
    cases r with
    | error e1 => intro _; rfl
    | ok v => intro h; simp at h

/-- C4: a failed authentication attempt leaves the client-cache state
exactly as it was, so any later call behaves as if the failed attempt had
never happened. -/
theorem failed_auth_leaves_state_unchanged :
    ∀ (env : AuthEnv) (now : Int) (s : ClientGetter) (e : Error),
      (ensure_authenticated env now s).1 = .error e →
      (ensure_authenticated env now s).2.1 = s ∧
      ∀ (env2 : AuthEnv) (now2 : Int),
        ensure_authenticated env2 now2 (ensure_authenticated env now s).2.1
          = ensure_authenticated env2 now2 s := by
  intro env now s e h
  have hs : (ensure_authenticated env now s).2.1 = s := by
    cases s with
    | Unauthenticated ld =>
        simp only [ensure_authenticated] at h ⊢
        exact _authenticated_self_error_frame env now _ ld e h
    | Authenticated ld cl valid_until =>
        simp only [ensure_authenticated] at h ⊢
        by_cases hlt : now < valid_until
        · rw [if_pos hlt] at h
          simp at h
        · rw [if_neg hlt] at h ⊢
          exact _authenticated_self_error_frame env now _ ld e h
  exact ⟨hs, fun env2 now2 => by rw [hs]⟩

/-- Witness for `failed_auth_leaves_state_unchanged`: a 401 from the token
endpoint against an `Unauthenticated` cache. -/
theorem failed_auth_leaves_state_unchanged_witness :
    (ensure_authenticated env401 0 (.Unauthenticated sampleLoginData)).2.1
      = .Unauthenticated sampleLoginData ∧
    ∀ (env2 : AuthEnv) (now2 : Int),
      ensure_authenticated env2 now2
          (ensure_authenticated env401 0 (.Unauthenticated sampleLoginData)).2.1
        = ensure_authenticated env2 now2 (.Unauthenticated sampleLoginData) :=
  failed_auth_leaves_state_unchanged env401 0 (.Unauthenticated sampleLoginData)
    (.CannotLogin ("login attempt failed with status code 401 Unauthorized")) rfl

/-- Helper: a state whose end flag is set produces no further page. -/
theorem pager_step_ended {T : Type} (resp : Except Error (PageResponse T))
    (st : PagerState T) (h : st.end_ = true) : pager_step resp st = .ok none := by
  simp [pager_step, h]

/-- Helper: a yielded step starts from a non-ended state and advances the
offset by exactly the number of records in the yielded page. -/
theorem pager_step_some_offset {T : Type} {resp : Except Error (PageResponse T)}
    {st st1 : PagerState T} {items : List T}
    (h : pager_step resp st = .ok (some (items, st1))) :
    st.end_ = false ∧ st1.query.offset = st.query.offset + items.length := by
  simp only [pager_step] at h
  split at h
  · simp at h
  · next hend =>
    refine ⟨by simpa using hend, ?_⟩
    cases resp with
    | error e => simp at h
    | ok response =>
      simp only at h
      split at h
      · simp at h
      · split at h
        · simp at h
        · simp only [Except.ok.injEq, Option.some.injEq, Prod.mk.injEq] at h
          obtain ⟨h1, h2⟩ := h
          subst h1
          subst h2
          simp [ConsolidatedShortInterestQuery.move_cursor]

/-- Helper: running the pager leaves the final cursor offset equal to the
initial offset plus the total record count of all yielded pages. -/
theorem run_pager_offset {T : Type} :
    ∀ (resps : List (Except Error (PageResponse T))) (st : PagerState T),
      (run_pager resps st).2.query.offset
        = st.query.offset + (((run_pager resps st).1).map List.length).sum := by
  intro resps
  induction resps with
  | nil => intro st; simp [run_pager]
  | cons r rest ih =>
    intro st
    simp only [run_pager]
    cases hps : pager_step r st with
    | error e => simp
    | ok o =>
      cases o with
      | none => simp
      | some p =>
        obtain ⟨items, st1⟩ := p
        have hoff := (pager_step_some_offset hps).2
        simp only [List.map_cons, List.sum_cons, ih st1, hoff]
        omega

/-- C1: the unfold step of `all_results` computes the end flag as
(reported total ≤ advanced cursor offset), yields the page and next state
even when the flag just became true, and produces no further page on the
next call when the flag was set or when a non-OK success status (such as
204) came back. -/
theorem pager_unfold_step_spec :
    (∀ (T : Type) (resp : Except Error (PageResponse T)) (st : PagerState T),
        st.end_ = true → pager_step resp st = .ok none) ∧
    (∀ (T : Type) (r : PageResponse T) (st : PagerState T),
        st.end_ = false → r.status ≠ 200 → pager_step (.ok r) st = .ok none) ∧
    (∀ (T : Type) (r : PageResponse T) (st : PagerState T) (items : List T),
        st.end_ = false → r.status = 200 → r.body = .ok items →
        ∃ st1, pager_step (.ok r) st = .ok (some (items, st1)) ∧
          st1.query.offset = st.query.offset + items.length ∧
          st1.end_ = decide ((((r.record_total_header).bind parse_u64).getD 0)
            ≤ st1.query.offset) ∧
          ∀ (resp2 : Except Error (PageResponse T)),
            st1.end_ = true → pager_step resp2 st1 = .ok none) := by
  refine ⟨?_, ?_, ?_⟩
  · intro T resp st h
    simp [pager_step, h]
  · intro T r st h1 h2
    simp [pager_step, h1, h2]
  · intro T r st items h1 h2 h3
    refine ⟨{ client := st.client, url := st.url,
              query := st.query.move_cursor items.length,
              end_ := decide ((((r.record_total_header).bind parse_u64).getD 0)
                ≤ (st.query.move_cursor items.length).offset) }, ?_, rfl, rfl, ?_⟩
    · simp [pager_step, h1, h2, h3]
    · intro resp2 hend
      exact pager_step_ended resp2 _ hend

/-- Witness for `pager_unfold_step_spec`: an ended state, a 204 response,
and an OK page of three records. -/
theorem pager_unfold_step_spec_witness :
    pager_step (T := Unit) (.ok samplePage) { samplePagerState with end_ := true } = .ok none ∧
    pager_step (.ok { samplePage with status := 204 }) samplePagerState = .ok none ∧
    ∃ st1, pager_step (.ok samplePage) samplePagerState = .ok (some ([(), (), ()], st1)) ∧
      st1.query.offset = samplePagerState.query.offset + ([(), (), ()] : List Unit).length ∧
      st1.end_ = decide ((((samplePage.record_total_header).bind parse_u64).getD 0)
        ≤ st1.query.offset) ∧
      ∀ (resp2 : Except Error (PageResponse Unit)),
        st1.end_ = true → pager_step resp2 st1 = .ok none :=
  ⟨pager_unfold_step_spec.1 Unit (.ok samplePage) { samplePagerState with end_ := true } rfl,
   pager_unfold_step_spec.2.1 Unit { samplePage with status := 204 } samplePagerState rfl
     (by decide),
   pager_unfold_step_spec.2.2 Unit samplePage samplePagerState [(), (), ()] rfl rfl rfl⟩

/-- C2: within every page stream the cursor offset never decreases, each
yielded step advances it by exactly the record count of the yielded page,
and for a stream started from a freshly constructed query (offset 0) the
records yielded across all pages sum to the final cursor offset. -/
theorem pager_cursor_offset_invariant :
    (∀ (T : Type) (resp : Except Error (PageResponse T)) (st st1 : PagerState T)
        (items : List T),
        pager_step resp st = .ok (some (items, st1)) →
        st1.query.offset = st.query.offset + items.length ∧
        st.query.offset ≤ st1.query.offset) ∧
    (∀ (T : Type) (resps : List (Except Error (PageResponse T))) (st : PagerState T),
        st.query.offset ≤ (run_pager resps st).2.query.offset) ∧
    (∀ (T : Type) (resps : List (Except Error (PageResponse T))) (client : Client)
        (url : String) (fields : Option (List ConsolidatedShortInterestField))
        (date_range : Option DateRange) (symbol : Option String),
        (((run_pager resps (all_results client url
            (ConsolidatedShortInterestQuery.new fields date_range symbol))).1).map
          List.length).sum
          = (run_pager resps (all_results client url
            (ConsolidatedShortInterestQuery.new fields date_range symbol))).2.query.offset) := by
  refine ⟨?_, ?_, ?_⟩
  · intro T resp st st1 items h
    have := (pager_step_some_offset h).2
    omega
  · intro T resps st
    have := run_pager_offset resps st
    omega
  · intro T resps client url fields date_range symbol
    have := run_pager_offset resps
      (all_results client url (ConsolidatedShortInterestQuery.new fields date_range symbol))
    simpa [all_results, ConsolidatedShortInterestQuery.new] using this.symm

/-- Witness for `pager_cursor_offset_invariant`: the concrete step from
offset 0 over a three-record page. -/
theorem pager_cursor_offset_invariant_witness :
    sampleNextState.query.offset
      = samplePagerState.query.offset + ([(), (), ()] : List Unit).length ∧
    samplePagerState.query.offset ≤ sampleNextState.query.offset :=
  pager_cursor_offset_invariant.1 Unit (.ok samplePage) samplePagerState sampleNextState
    [(), (), ()] rfl

/-- C5: a 200 page whose Record-Total header is absent or unparseable gets
total 0, so the step still yields the page but with the end flag true, and
no further page is produced afterwards. -/
theorem missing_record_total_terminates :
    ∀ (T : Type) (r : PageResponse T) (st : PagerState T) (items : List T),
      st.end_ = false → r.status = 200 → r.body = .ok items →
      (r.record_total_header).bind parse_u64 = none →
      ∃ st1, pager_step (.ok r) st = .ok (some (items, st1)) ∧ st1.end_ = true ∧
        ∀ (resp2 : Except Error (PageResponse T)), pager_step resp2 st1 = .ok none := by
  intro T r st items h1 h2 h3 h4
  refine ⟨{ client := st.client, url := st.url,
            query := st.query.move_cursor items.length, end_ := true }, ?_, rfl, ?_⟩
  · simp [pager_step, h1, h2, h3, h4]
  · intro resp2
    simp [pager_step]

/-- Witness for `missing_record_total_terminates`: a two-record page with
no Record-Total header. -/
theorem missing_record_total_terminates_witness :
    ∃ st1, pager_step (.ok noTotalPage) samplePagerState = .ok (some ([(), ()], st1)) ∧
      st1.end_ = true ∧
      ∀ (resp2 : Except Error (PageResponse Unit)), pager_step resp2 st1 = .ok none :=
  missing_record_total_terminates Unit noTotalPage samplePagerState [(), ()] rfl rfl rfl rfl

/-- C6: a token-endpoint response with any status other than 200 makes
authentication fail with a `CannotLogin` error carrying the status code;
`get_client` propagates that error, and `consolidated_short_interest`
returns it instead of a pager stream, so no data-endpoint request is
issued. -/
theorem non_200_login_fails_hard :
    ∀ (env : AuthEnv) (ld : LoginData) (cl : Client) (resp : TokenResponse),
      env.buildLoginClient = .ok cl →
      env.send ("Basic " ++ base64encode (ld.client_id ++ ":" ++ ld.client_secret)) = .ok resp →
      resp.status ≠ 200 →
      _authenticate_client env ld
        = (.error (.CannotLogin ("login attempt failed with status code "
            ++ status_display resp.status)), 1) ∧
      ∀ (now : Int),
        (Finra.get_client env now (.Unauthenticated ld)).1
          = .error (.CannotLogin ("login attempt failed with status code "
              ++ status_display resp.status)) ∧
        ∀ (f : Finra) (q : ConsolidatedShortInterestQuery),
          f.client_getter = .Unauthenticated ld →
          (Finra.consolidated_short_interest env now f q).1
            = .error (.CannotLogin ("login attempt failed with status code "
                ++ status_display resp.status)) := by
  intro env ld cl resp hb hs hstat
  have hac : _authenticate_client env ld
      = (.error (.CannotLogin ("login attempt failed with status code "
          ++ status_display resp.status)), 1) := by
    simp only [_authenticate_client, hb, hs]
    rw [if_pos hstat]
  refine ⟨hac, ?_⟩
  intro now
  have hens : ensure_authenticated env now (.Unauthenticated ld)
      = (.error (.CannotLogin ("login attempt failed with status code "
          ++ status_display resp.status)), .Unauthenticated ld, 1) := by
    simp only [ensure_authenticated, _authenticated_self, hac]
  have hg : Finra.get_client env now (.Unauthenticated ld)
      = (.error (.CannotLogin ("login attempt failed with status code "
          ++ status_display resp.status)), .Unauthenticated ld, 1) := by
    unfold Finra.get_client
    rw [hens]
  refine ⟨by rw [hg], ?_⟩
  intro f q hf
  unfold Finra.consolidated_short_interest
  rw [hf, hg]

/-- Witness for `non_200_login_fails_hard`: status 401 against a fresh
(`Unauthenticated`) cache. -/
theorem non_200_login_fails_hard_witness :
    _authenticate_client env401 sampleLoginData
      = (.error (.CannotLogin ("login attempt failed with status code "
          ++ status_display resp401.status)), 1) ∧
    (Finra.get_client env401 0 (.Unauthenticated sampleLoginData)).1
      = .error (.CannotLogin ("login attempt failed with status code "
          ++ status_display resp401.status)) ∧
    (Finra.consolidated_short_interest env401 0
        { use_mock_datasets := true, client_getter := .Unauthenticated sampleLoginData }
        (ConsolidatedShortInterestQuery.new none none none)).1
      = .error (.CannotLogin ("login attempt failed with status code "
          ++ status_display resp401.status)) := by
  have h := non_200_login_fails_hard env401 sampleLoginData {} resp401 rfl rfl (by decide)
  exact ⟨h.1, (h.2 0).1, (h.2 0).2 _ (ConsolidatedShortInterestQuery.new none none none) rfl⟩

/-- Counterexample to C7: a missing `expires_in` field and a wrong-typed
(numeric, non-string) `expires_in` field produce the identical
`CannotLogin` failure, so for the expiry field the two cases are not
distinct. -/
theorem expiry_missing_and_wrong_typed_same_error :
    (_authenticate_client envExpiryMissing sampleLoginData).1
      = .error (.CannotLogin ("the login response didn\x27t contain the expiry of the token")) ∧
    (_authenticate_client envExpiryWrongType sampleLoginData).1
      = .error (.CannotLogin ("the login response didn\x27t contain the expiry of the token")) :=
  ⟨rfl, rfl⟩

/-- C7 amended: both fields are required and never silently defaulted, and
every missing or wrong-typed shape is an explicit `CannotLogin` failure;
for the access-token field the missing and non-string failures are
distinct, while for the expiry field the missing and non-string cases
collapse into the same missing-expiry failure. -/
theorem login_required_fields_explicit_failures :
    ∀ (env : AuthEnv) (ld : LoginData) (cl : Client) (resp : TokenResponse) (body : Json),
      env.buildLoginClient = .ok cl →
      env.send ("Basic " ++ base64encode (ld.client_id ++ ":" ++ ld.client_secret)) = .ok resp →
      resp.status = 200 → resp.body = .ok body →
      ((body.get ("expires_in") = none →
        (_authenticate_client env ld).1
          = .error (.CannotLogin ("the login response didn\x27t contain the expiry of the token"))) ∧
      (∀ (v : Json), body.get ("expires_in") = some v → v.as_str = none →
        (_authenticate_client env ld).1
          = .error (.CannotLogin ("the login response didn\x27t contain the expiry of the token"))) ∧
      (∀ (s : String) (n : Int),
        (body.get ("expires_in")).bind Json.as_str = some s → parse_i64 s = some n →
        body.get ("access_token") = none →
        (_authenticate_client env ld).1
          = .error (.CannotLogin ("access_token not present in the login response"))) ∧
      (∀ (s : String) (n : Int) (v : Json),
        (body.get ("expires_in")).bind Json.as_str = some s → parse_i64 s = some n →
        body.get ("access_token") = some v → v.as_str = none →
        (_authenticate_client env ld).1
          = .error (.CannotLogin ("access_token is not a string in the login response")))) := by
  intro env ld cl resp body hb hs h200 hbody
  refine ⟨?_, ?_, ?_, ?_⟩
  · intro hmiss
    simp [_authenticate_client, hb, hs, h200, hbody, hmiss]
  · intro v hv hvs
    simp [_authenticate_client, hb, hs, h200, hbody, hv, hvs]
  · intro s n hbind hparse hat
    simp [_authenticate_client, hb, hs, h200, hbody, hbind, hparse, hat]
  · intro s n v hbind hparse hat hats
    simp [_authenticate_client, hb, hs, h200, hbody, hbind, hparse, hat, hats]

/-- Witness for `login_required_fields_explicit_failures`: the concrete
missing-expiry body. -/
theorem login_required_fields_explicit_failures_witness :
    (_authenticate_client envExpiryMissing sampleLoginData).1
      = .error (.CannotLogin ("the login response didn\x27t contain the expiry of the token")) :=
  (login_required_fields_explicit_failures envExpiryMissing sampleLoginData {}
    { status := 200, body := .ok (.obj [("access_token", .str ("abc"))]) }
    (.obj [("access_token", .str ("abc"))]) rfl rfl rfl rfl).1 rfl

/-- Helper: `_authenticate_client` never fails with
`CannotConstructHttpClient`; its failures are transport, header or login
errors only. -/
theorem _authenticate_client_error_kind (env : AuthEnv) (ld : LoginData) :
    (_authenticate_client env ld).1 ≠ .error .CannotConstructHttpClient := by
  intro h
  simp only [_authenticate_client] at h
  repeat' split at h
  all_goals simp_all

/-- Helper: `_authenticated_self` never fails with
`CannotConstructHttpClient` either. -/
theorem _authenticated_self_error_kind (env : AuthEnv) (now : Int)
    (s : ClientGetter) (ld : LoginData) :
    (_authenticated_self env now s ld).1 ≠ .error .CannotConstructHttpClient := by
  have hkind := _authenticate_client_error_kind env ld
  simp only [_authenticated_self]
  cases hac : _authenticate_client env ld with
  | mk r n =>
    rw [hac] at hkind
    cases r with
    | error e => simpa using hkind
    | ok v =>
      obtain ⟨cl, validity⟩ := v
      simp

/-- Helper: `ensure_authenticated` never fails with
`CannotConstructHttpClient` either. -/
theorem ensure_authenticated_error_kind (env : AuthEnv) (now : Int) (s : ClientGetter) :
    (ensure_authenticated env now s).1 ≠ .error .CannotConstructHttpClient := by
  cases s with
  | Unauthenticated ld =>
      simp only [ensure_authenticated]
      exact _authenticated_self_error_kind env now _ ld
  | Authenticated ld cl valid_until =>
      simp only [ensure_authenticated]
      by_cases hlt : now < valid_until
      · rw [if_pos hlt]
        simp
      · rw [if_neg hlt]
        exact _authenticated_self_error_kind env now _ ld

/-- Helper: a successful `ensure_authenticated` always leaves the cache in
the `Authenticated` state. -/
theorem ensure_ok_state_authenticated (env : AuthEnv) (now : Int) (s : ClientGetter)
    (h : (ensure_authenticated env now s).1 = .ok ()) :
    ∃ ld cl vu, (ensure_authenticated env now s).2.1 = .Authenticated ld cl vu := by
  cases s with
  | Unauthenticated ld =>
      simp only [ensure_authenticated, _authenticated_self] at h ⊢
      cases hac : _authenticate_client env ld with
      | mk r n =>
        rw [hac] at h
        cases r with
        | error e => simp at h
        | ok v =>
          obtain ⟨cl, validity⟩ := v
          exact ⟨ld, cl, now + validity, rfl⟩
  | Authenticated ld cl valid_until =>
      by_cases hlt : now < valid_until
      · refine ⟨ld, cl, valid_until, ?_⟩
        simp only [ensure_authenticated]
        rw [if_pos hlt]
      · simp only [ensure_authenticated, _authenticated_self] at h ⊢
        rw [if_neg hlt] at h ⊢
        cases hac : _authenticate_client env ld with
        | mk r n =>
          rw [hac] at h
          cases r with
          | error e => simp at h
          | ok v =>
            obtain ⟨cl2, validity⟩ := v
            exact ⟨ld, cl2, now + validity, rfl⟩

/-- C10: whenever `ensure_authenticated` succeeds the state holds a
client, so `ClientGetter::get_client` returns `Some`; consequently
`consolidated_short_interest` can never surface
`CannotConstructHttpClient`. -/
theorem ensure_ok_gives_client :
    (∀ (env : AuthEnv) (now : Int) (s : ClientGetter),
        (ensure_authenticated env now s).1 = .ok () →
        ∃ cl, ((ensure_authenticated env now s).2.1).get_client = some cl) ∧
    (∀ (env : AuthEnv) (now : Int) (f : Finra) (q : ConsolidatedShortInterestQuery),
        (Finra.consolidated_short_interest env now f q).1
          ≠ .error .CannotConstructHttpClient) := by
  constructor
  · intro env now s h
    obtain ⟨ld, cl, vu, hst⟩ := ensure_ok_state_authenticated env now s h
    exact ⟨cl, by rw [hst]; rfl⟩
  · intro env now f q h
    unfold Finra.consolidated_short_interest Finra.get_client at h
    cases hens : ensure_authenticated env now f.client_getter with
    | mk r rest =>
      obtain ⟨s1, n⟩ := rest
      rw [hens] at h
      cases r with
      | error e =>
          have hk := ensure_authenticated_error_kind env now f.client_getter
          rw [hens] at hk
          simp at h hk
          exact hk h
      | ok u =>
          cases u
          obtain ⟨ld, cl, vu, hst⟩ :=
            ensure_ok_state_authenticated env now f.client_getter (by rw [hens])
          rw [hens] at hst
          simp at hst
          rw [hst] at h
          simp [ClientGetter.get_client] at h

/-- Witness for `ensure_ok_gives_client`: a successful authentication from
the `Unauthenticated` state. -/
theorem ensure_ok_gives_client_witness :
    ∃ cl, ((ensure_authenticated goodAuthEnv 0
      (.Unauthenticated sampleLoginData)).2.1).get_client = some cl :=
  ensure_ok_gives_client.1 goodAuthEnv 0 (.Unauthenticated sampleLoginData) rfl

end FinraRs
